import Mathlib

/-!
Verification of the Physarum simulation core of this repository.

The embedding covers:
* the agent-update fragment shader (sense-rotate-move kernel), file
  agentSim.frag;
* the combined blur + decay fragment shader (diffuse-decay pass), file
  blur.frag, together with the older linear-subtraction variant of the same
  pass kept in the sources;
* the deposit fragment shader (trail deposit pass), file trailMap.frag;
* the TypeScript orchestration of the per-frame passes, reset and resize in
  src/examples/Physarum/index.ts.

GLSL floats are modelled by exact arithmetic: the agent kernel is embedded
over the rationals, with the transcendental primitives cos / sin passed in as
an explicit oracle (structure Trig below), so every definition stays
computable and concrete runs can be settled by decide.  The diffuse-decay
arithmetic, whose decay term is the transcendental pow(decayFactor, deltaTime),
is embedded over the reals with Real.rpow.  All other structure (operand
order, branch order, wrapping via fract, clamping) is translated literally
from the shader sources.
-/

namespace Physarum

/-- A 2D vector, as GLSL vec2 (components exact rationals). -/
abbrev V2 : Type := ℚ × ℚ

/-- A GLSL vec4 texel value, as stored in the agent-state texture:
x,y = position, z = stored heading, w = reserved channel. -/
structure Vec4 where
  x : ℚ
  y : ℚ
  z : ℚ
  w : ℚ
deriving DecidableEq, Repr

/-- Oracle for the GLSL transcendental primitives cos and sin.  The agent
kernel is parametric in this oracle: every theorem below that holds for all
oracles in particular holds for the floating-point cos/sin of the GPU. -/
structure Trig where
  c : ℚ → ℚ
  s : ℚ → ℚ

/-- The shader's constant PI (agentSim.frag line 14): the literal
3.14159265359, not the real number pi. -/
def PI : ℚ := 3.14159265359

/-- GLSL fract(x) = x - floor(x), componentwise on a vec2
(agentSim.frag uses it to wrap sensor and position coordinates). -/
def fract2 (v : V2) : V2 := (Int.fract v.1, Int.fract v.2)

/-- rotate from agentSim.frag lines 18-22: rotate a 2D vector by an angle,
with cos/sin taken from the oracle. -/
def rotate (tg : Trig) (v : V2) (angle : ℚ) : V2 :=
  (v.1 * tg.c angle - v.2 * tg.s angle, v.1 * tg.s angle + v.2 * tg.c angle)

/-- random from agentSim.frag lines 27-29:
fract(sin(dot(st, vec2(12.9898, 78.233))) * 43758.5453). -/
def random (tg : Trig) (st : V2) : ℚ :=
  Int.fract (tg.s (st.1 * 12.9898 + st.2 * 78.233) * 43758.5453)

/-- The uniforms read by agentSim.frag. -/
structure AgentUniforms where
  uSensorAngle : ℚ
  uSensorDistance : ℚ
  uRotationAngle : ℚ
  uStepSize : ℚ
  uTime : ℚ

/-- The pseudo-random value used by the exploration branch of
agentSim.frag line 81: random(vUv + vec2(uTime)).  Note its arguments: the
texel coordinate vUv and the time, not the agent's position. -/
def explorationRand (tg : Trig) (U : AgentUniforms) (vUv : V2) : ℚ :=
  random tg (vUv + (U.uTime, U.uTime))

/-- The heading decision of agentSim.frag lines 72-94, as a function of the
current angle and the three sensor readings F, L, R.  The branch structure
and the strict comparisons are literal; rand is the pseudo-random sample
the exploration branch draws (hoisted to a parameter: the shader computes
it inside the branch, which is semantics-preserving for a pure function). -/
def decideAngle (angle F L R rot rand : ℚ) : ℚ :=
  if F > L ∧ F > R then angle
  else if F < L ∧ F < R then angle + (rand - 1/2) * rot * 2
  else if L > R then angle - rot
  else if R > L then angle + rot
  else angle

/-- The three sensor readings of agentSim.frag lines 47-65, in the order
(L, F, R): trail sampled at the left, front and right sensor points, each
wrapped by fract. -/
def senseLFR (tg : Trig) (U : AgentUniforms) (trail : V2 → ℚ) (pos : V2)
    (angle : ℚ) : ℚ × ℚ × ℚ :=
  let forward : V2 := (tg.c angle, tg.s angle)
  let sensorOffset : V2 := (forward.1 * U.uSensorDistance, forward.2 * U.uSensorDistance)
  let leftSensor := pos + rotate tg sensorOffset (-U.uSensorAngle)
  let frontSensor := pos + sensorOffset
  let rightSensor := pos + rotate tg sensorOffset U.uSensorAngle
  (trail (fract2 leftSensor), trail (fract2 frontSensor), trail (fract2 rightSensor))

/-- The new heading angle computed by one kernel invocation (the value the
shader calls newAngle at line 94, before the move phase). -/
def agentNewAngle (tg : Trig) (U : AgentUniforms) (trail : V2 → ℚ) (vUv : V2)
    (particle : Vec4) : ℚ :=
  let angle := particle.z * 2 * PI
  let lfr := senseLFR tg U trail (particle.x, particle.y) angle
  decideAngle angle lfr.2.1 lfr.1 lfr.2.2 U.uRotationAngle (explorationRand tg U vUv)

/-- main of agentSim.frag lines 31-110: one sense-rotate-move step for the
particle stored at texel vUv.  Output texel: new position (fract-wrapped),
stored heading newAngle / (2 PI), reserved channel passed through. -/
def agentMain (tg : Trig) (U : AgentUniforms) (trail : V2 → ℚ) (vUv : V2)
    (particle : Vec4) : Vec4 :=
  let pos : V2 := (particle.x, particle.y)
  let newAngle := agentNewAngle tg U trail vUv particle
  let direction : V2 := (tg.c newAngle, tg.s newAngle)
  let newPos := fract2 (pos + (direction.1 * U.uStepSize, direction.2 * U.uStepSize))
  ⟨newPos.1, newPos.2, newAngle / (2 * PI), particle.w⟩

/-- Concrete trig oracle whose cos is constantly -1 and sin constantly 0:
every heading is read as pointing in the -x direction.  Used to realize the
spec's toroidal-continuity scenario. -/
def tgNegX : Trig := ⟨fun _ => -1, fun _ => 0⟩

/-- Concrete uniforms for the toroidal-continuity scenario: sensorAngle 1,
sensorDistance 1/4, rotationAngle 1, stepSize 0.01, time 0. -/
def U3 : AgentUniforms := ⟨1, 1/4, 1, 1/100, 0⟩

/-- Concrete trig oracle with cos the indicator of 0 and sin the identity;
at angle 0 the forward vector is (1,0) and the two sensor rotations by -1 and
+1 send the sensor offset to (0,-d) and (0,+d), so the three sensor points of
an agent at (1/2,1/2) with sensorDistance 1/4 are (1/2,1/4), (3/4,1/2) and
(1/2,3/4). -/
def tgHash : Trig := ⟨fun a => if a = 0 then 1 else 0, id⟩

/-- Concrete uniforms: sensorAngle 1, sensorDistance 1/4, rotationAngle 1,
stepSize 0, time 0. -/
def U4 : AgentUniforms := ⟨1, 1/4, 1, 0, 0⟩

/-- Concrete trail field putting intensity 1 at the left and front sensor
points of the tgHash / U4 agent at (1/2,1/2) and 0 elsewhere: sensor readings
L = 1, F = 1, R = 0. -/
def trailFL : V2 → ℚ := fun p =>
  if p = ((1:ℚ)/2, (1:ℚ)/4) then 1 else if p = ((3:ℚ)/4, (1:ℚ)/2) then 1 else 0

/-- Concrete trail field putting intensity 1 at the left and right sensor
points only: sensor readings L = 1, F = 0, R = 1, which drives the kernel
into its exploration branch. -/
def trailLR : V2 → ℚ := fun p =>
  if p = ((1:ℚ)/2, (1:ℚ)/4) then 1 else if p = ((1:ℚ)/2, (3:ℚ)/4) then 1 else 0

end Physarum

namespace Physarum

/-- C1 counterexample.  At sensor readings F = 1, L = 1, R = 0 (so front ≥
both left and right) with rotationAngle 1, the claimed rule keeps the heading
(angle 0), but the kernel's decision — whose first branch tests the strict
F > L && F > R — falls through to the L > R branch and rotates to -1. -/
theorem C1_tiebreak_counterexample :
    ((1:ℚ) ≥ 1 ∧ (1:ℚ) ≥ 0) ∧
      decideAngle 0 1 1 0 1 0 = -1 ∧ decideAngle 0 1 1 0 1 0 ≠ 0 := by
  norm_num [decideAngle]

/-- C1 amended: the decision rule uses strict comparisons.  If front > both
left and right the heading is kept; else if front < both a pseudo-random
offset in [-rotationAngle, +rotationAngle] is added; else if left > right the
heading is rotated by -rotationAngle; else if right > left by +rotationAngle;
in any other case the heading is kept. -/
theorem C1_decision_rule (angle F L R rot rand : ℚ) :
    (F > L ∧ F > R → decideAngle angle F L R rot rand = angle) ∧
    (¬(F > L ∧ F > R) → F < L ∧ F < R →
      decideAngle angle F L R rot rand = angle + (rand - 1/2) * rot * 2) ∧
    (¬(F > L ∧ F > R) → ¬(F < L ∧ F < R) → L > R →
      decideAngle angle F L R rot rand = angle - rot) ∧
    (¬(F > L ∧ F > R) → ¬(F < L ∧ F < R) → ¬(L > R) → R > L →
      decideAngle angle F L R rot rand = angle + rot) ∧
    (¬(F > L ∧ F > R) → ¬(F < L ∧ F < R) → ¬(L > R) → ¬(R > L) →
      decideAngle angle F L R rot rand = angle) := by
  refine ⟨fun h => ?_, fun h1 h2 => ?_, fun h1 h2 h3 => ?_,
    fun h1 h2 h3 h4 => ?_, fun h1 h2 h3 h4 => ?_⟩ <;>
    simp [decideAngle, *]

/-- C1 witness: the strict-comparison rule at a concrete input (F = 5,
L = 1, R = 2 with front strictly largest keeps the heading 0). -/
theorem C1_decision_rule_witness : decideAngle 0 5 1 2 1 0 = 0 :=
  (C1_decision_rule 0 5 1 2 1 0).1 (by norm_num)

/-- C3: for every oracle, uniforms, trail, texel coordinate and particle, the
new position is the old position plus forward(newHeading) times stepSize,
wrapped per axis by the fractional part, so both output coordinates lie in
[0,1); and concretely an agent at (0.001, 0.5) whose heading reads as the -x
direction with stepSize 0.01 ends at (0.991, 0.5). -/
theorem C3_move_and_wrap :
    (∀ (tg : Trig) (U : AgentUniforms) (trail : V2 → ℚ) (uv : V2) (p : Vec4),
      ((agentMain tg U trail uv p).x
          = Int.fract (p.x + tg.c (agentNewAngle tg U trail uv p) * U.uStepSize) ∧
       (agentMain tg U trail uv p).y
          = Int.fract (p.y + tg.s (agentNewAngle tg U trail uv p) * U.uStepSize)) ∧
      (0 ≤ (agentMain tg U trail uv p).x ∧ (agentMain tg U trail uv p).x < 1) ∧
      (0 ≤ (agentMain tg U trail uv p).y ∧ (agentMain tg U trail uv p).y < 1)) ∧
    agentMain tgNegX U3 (fun _ => 0) (0, 0) ⟨1/1000, 1/2, 1/2, 1⟩
      = ⟨991/1000, 1/2, 1/2, 1⟩ := by
  constructor
  · intro tg U trail uv p
    exact ⟨⟨rfl, rfl⟩,
      ⟨Int.fract_nonneg _, Int.fract_lt_one _⟩,
      ⟨Int.fract_nonneg _, Int.fract_lt_one _⟩⟩
  · norm_num [agentMain, agentNewAngle, senseLFR, decideAngle, explorationRand,
      random, rotate, fract2, Int.fract, PI, tgNegX, U3]

/-- C4 counterexample.  A concrete agent with stored heading 0 whose sensor
readings are L = 1, F = 1, R = 0 takes the L > R branch, so the kernel writes
back (0 - rotationAngle) / (2 PI) < 0: the stored heading channel leaves
[0,1) (there is no renormalization before the write at line 109). -/
theorem C4_heading_counterexample :
    (agentMain tgHash U4 trailFL (0, 0) ⟨1/2, 1/2, 0, 1⟩).z < 0 := by
  norm_num [agentMain, agentNewAngle, senseLFR, decideAngle, explorationRand,
    random, rotate, fract2, Int.fract, PI, tgHash, U4, trailFL]

/-- Bound for the decision step: the new angle moves by at most rot from the
old one, provided rot is nonnegative and the random draw lies in [0,1). -/
theorem decideAngle_abs_sub_le (angle F L R rot rand : ℚ)
    (hrot : 0 ≤ rot) (h0 : 0 ≤ rand) (h1 : rand < 1) :
    |decideAngle angle F L R rot rand - angle| ≤ rot := by
  unfold decideAngle
  split_ifs
  · simpa using hrot
  · have h : angle + (rand - 1/2) * rot * 2 - angle = (rand - 1/2) * (2 * rot) := by
      ring
    have habs : |rand - 1/2| ≤ 1/2 := abs_le.mpr ⟨by linarith, by linarith⟩
    rw [h, abs_mul, abs_of_nonneg (by linarith : (0:ℚ) ≤ 2 * rot)]
    nlinarith [abs_nonneg (rand - 1/2)]
  · have h : angle - rot - angle = -rot := by ring
    rw [h, abs_neg, abs_of_nonneg hrot]
  · have h : angle + rot - angle = rot := by ring
    rw [h, abs_of_nonneg hrot]
  · simpa using hrot

/-- C4 amended: the kernel writes the heading channel back as newAngle/(2 PI)
without renormalizing it into [0,1); what does hold is that one step moves
the stored heading by at most rotationAngle/(2 PI) in absolute value
(the random draw of the exploration branch lies in [0,1), so its offset is
within [-rotationAngle, +rotationAngle]). -/
theorem C4_heading_drift (tg : Trig) (U : AgentUniforms) (trail : V2 → ℚ)
    (uv : V2) (p : Vec4) (hrot : 0 ≤ U.uRotationAngle) :
    |(agentMain tg U trail uv p).z - p.z| ≤ U.uRotationAngle / (2 * PI) := by
  have hPI : (0:ℚ) < 2 * PI := by norm_num [PI]
  have hz : (agentMain tg U trail uv p).z
      = agentNewAngle tg U trail uv p / (2 * PI) := rfl
  have hpz : p.z = p.z * 2 * PI / (2 * PI) := by
    rw [mul_assoc, mul_div_cancel_right₀ _ (ne_of_gt hPI)]
  have hrand0 : 0 ≤ explorationRand tg U uv := Int.fract_nonneg _
  have hrand1 : explorationRand tg U uv < 1 := Int.fract_lt_one _
  have hcore : |agentNewAngle tg U trail uv p - p.z * 2 * PI| ≤ U.uRotationAngle := by
    unfold agentNewAngle
    exact decideAngle_abs_sub_le _ _ _ _ _ _ hrot hrand0 hrand1
  rw [hz]
  nth_rewrite 1 [hpz]
  rw [div_sub_div_same, abs_div, abs_of_pos hPI]
  gcongr

/-- C4 witness: the drift bound applied at a concrete input. -/
theorem C4_heading_drift_witness :
    |(agentMain tgNegX U3 (fun _ => 0) (0, 0) ⟨1/1000, 1/2, 1/2, 1⟩).z - 1/2|
      ≤ U3.uRotationAngle / (2 * PI) :=
  C4_heading_drift tgNegX U3 (fun _ => 0) (0, 0) ⟨1/1000, 1/2, 1/2, 1⟩
    (by norm_num [U3])

/-- C5 counterexample.  Two kernel invocations on the same particle (hence
the same position and heading), the same uniforms (hence the same time) and
the same trail, both taking the exploration branch, but stored at different
texel coordinates vUv, write back different headings: the hash at line 81 is
seeded with random(vUv + vec2(uTime)), a function of the texel coordinate
and the time, not of the agent's position. -/
theorem C5_position_time_counterexample :
    (agentMain tgHash U4 trailLR (0, 0) ⟨1/2, 1/2, 0, 1⟩).z ≠
      (agentMain tgHash U4 trailLR (1/100, 0) ⟨1/2, 1/2, 0, 1⟩).z := by
  norm_num [agentMain, agentNewAngle, senseLFR, decideAngle, explorationRand,
    random, rotate, fract2, Int.fract, PI, tgHash, U4, trailLR]

/-- C5 amended: the pseudo-random exploration draw is a deterministic function
of the (texel coordinate, time) pair: any two invocations sharing vUv and
uTime (whatever the rest of their uniforms, trail or agent state) draw the
identical value. -/
theorem C5_texel_time_determinism (tg : Trig) (U U' : AgentUniforms) (uv : V2)
    (h : U.uTime = U'.uTime) :
    explorationRand tg U uv = explorationRand tg U' uv := by
  unfold explorationRand
  rw [h]

/-- C5 witness: two uniform sets agreeing on uTime but not on uStepSize draw
the same exploration value at texel (0,0). -/
theorem C5_texel_time_determinism_witness :
    explorationRand tgHash U4 (0, 0)
      = explorationRand tgHash ⟨1, 1/4, 1, 5, 0⟩ (0, 0) :=
  C5_texel_time_determinism tgHash U4 ⟨1, 1/4, 1, 5, 0⟩ (0, 0) rfl

/-- A trail field, indexed by screen UV coordinates.  blur.frag and
trailMap.frag apply the same arithmetic to the r, g and b channels
independently, so one real-valued channel is modelled. -/
abbrev TrailField : Type := (ℝ × ℝ) → ℝ

/-- GLSL clamp(x, 0.0, 1.0) = min(max(x, 0), 1). -/
noncomputable def clamp01 (x : ℝ) : ℝ := min (max x 0) 1

/-- The decay term of blur.frag line 50: pow(uDecayFactor, uDeltaTime),
real exponentiation of the retention factor by the frame's delta-time. -/
noncomputable def decayRetention (d dt : ℝ) : ℝ := d ^ dt

/-- The 3x3 neighborhood sum of blur.frag lines 20-35: all eight neighbors
plus the center, at texel offsets (1/res.x, 1/res.y). -/
noncomputable def boxSum9 (T : TrailField) (res uv : ℝ × ℝ) : ℝ :=
  T (uv.1 - 1 / res.1, uv.2 + 1 / res.2) + T (uv.1, uv.2 + 1 / res.2)
    + T (uv.1 + 1 / res.1, uv.2 + 1 / res.2)
    + T (uv.1 - 1 / res.1, uv.2) + T uv + T (uv.1 + 1 / res.1, uv.2)
    + T (uv.1 - 1 / res.1, uv.2 - 1 / res.2) + T (uv.1, uv.2 - 1 / res.2)
    + T (uv.1 + 1 / res.1, uv.2 - 1 / res.2)

/-- main of blur.frag (the diffuse-decay pass used by index.ts), lines 12-53:
box blur average, lerp between center and average by
clamp(uDiffuseWeight * uDeltaTime, 0, 1), then multiplication by
pow(uDecayFactor, uDeltaTime).  Parameters follow the uniform declaration
order uTrailMap, uResolution, uDecayFactor, uDeltaTime, uDiffuseWeight. -/
noncomputable def blurFragMain (T : TrailField) (res : ℝ × ℝ) (d dt w : ℝ)
    (uv : ℝ × ℝ) : ℝ :=
  let blur := boxSum9 T res uv / 9
  let original := T uv
  let diffuseWeight := clamp01 (w * dt)
  let blurred := original * (1 - diffuseWeight) + blur * diffuseWeight
  blurred * decayRetention d dt

/-- main of the older linear-subtraction variant of the blur + decay shader
kept in the sources: mix(original, blur, uDiffuseWeight) with the weight not
scaled by delta-time, then max(0, diffused - uDecayFactor * uDeltaTime). -/
noncomputable def blurLinearMain (T : TrailField) (res : ℝ × ℝ) (d dt w : ℝ)
    (uv : ℝ × ℝ) : ℝ :=
  let blur := boxSum9 T res uv / 9
  let original := T uv
  let diffused := original * (1 - w) + blur * w
  max 0 (diffused - d * dt)

/-- The Diffuse-Decay texel update written from the spec's words (section
4.4): blend the neighborhood average with the un-blurred center value by
diffuseWeight, the weight scaled by delta-time and clamped to [0,1], then
apply exponential decay value *= decayFactor ^ deltaTime. -/
noncomputable def specDiffuseDecay (T : TrailField) (res : ℝ × ℝ) (d dt w : ℝ)
    (uv : ℝ × ℝ) : ℝ :=
  let avg := boxSum9 T res uv / 9
  let weight := clamp01 (w * dt)
  (T uv * (1 - weight) + avg * weight) * decayRetention d dt

/-- C2: the Diffuse-Decay pass blends center and 3x3 average by
diffuseWeight scaled by delta-time and clamped to [0,1], and multiplies the
result by decayFactor ^ deltaTime, exactly as the spec prescribes; and this
is not the linear-subtraction (or plain per-frame multiplication) form: on
the constant-1 field with decayFactor 1/2 and deltaTime 2 the exponential
pass retains 1/4 while the linear-subtraction variant clamps to 0. -/
theorem C2_exponential_decay_form :
    (∀ (T : TrailField) (res : ℝ × ℝ) (d dt w : ℝ) (uv : ℝ × ℝ),
      blurFragMain T res d dt w uv = specDiffuseDecay T res d dt w uv) ∧
    blurFragMain (fun _ => 1) (2, 2) (1/2) 2 1 (0, 0) = 1/4 ∧
    blurLinearMain (fun _ => 1) (2, 2) (1/2) 2 1 (0, 0) = 0 ∧
    blurFragMain (fun _ => 1) (2, 2) (1/2) 2 1 (0, 0)
      ≠ blurLinearMain (fun _ => 1) (2, 2) (1/2) 2 1 (0, 0) := by
  have hpow : ((1:ℝ)/2) ^ (2:ℝ) = 1/4 := by
    rw [show ((2:ℝ)) = ((2:ℕ):ℝ) by norm_num, Real.rpow_natCast]
    norm_num
  have hexp : blurFragMain (fun _ => 1) (2, 2) (1/2) 2 1 (0, 0) = 1/4 := by
    simp [blurFragMain, boxSum9, clamp01, decayRetention, hpow]
    norm_num
  have hlin : blurLinearMain (fun _ => 1) (2, 2) (1/2) 2 1 (0, 0) = 0 := by
    simp [blurLinearMain, boxSum9]
    norm_num
  refine ⟨fun T res d dt w uv => rfl, hexp, hlin, ?_⟩
  rw [hexp, hlin]
  norm_num

/-- Iterating multiplication by a fixed factor r is multiplication by r^k. -/
theorem iterate_mul_factor (r : ℝ) (k : ℕ) (x : ℝ) :
    (fun y => y * r)^[k] x = x * r ^ k := by
  induction k with
  | zero => simp
  | succ n ih =>
      rw [Function.iterate_succ_apply', ih, pow_succ, mul_assoc]

/-- C9: the decay computation composes exponentially: for decayFactor in
[0,1], delta-time dt at least 0 and k at least 1, applying the decay step k
times with delta-time dt/k multiplies a texel by the same total factor as
applying it once with dt, since (decayFactor^(dt/k))^k = decayFactor^dt. -/
theorem C9_decay_composition (d dt : ℝ) (k : ℕ) (hd0 : 0 ≤ d) (hd1 : d ≤ 1)
    (hdt : 0 ≤ dt) (hk : 1 ≤ k) :
    ∀ x : ℝ,
      (fun y => y * decayRetention d (dt / (k : ℝ)))^[k] x
        = x * decayRetention d dt := by
  intro x
  rw [iterate_mul_factor]
  unfold decayRetention
  have hk0 : (k : ℝ) ≠ 0 := Nat.cast_ne_zero.mpr (by omega)
  rw [← Real.rpow_natCast (d ^ (dt / (k:ℝ))) k, ← Real.rpow_mul hd0,
    div_mul_cancel₀ _ hk0]

/-- C9 witness: two half-steps of dt = 1/2 equal one step of dt = 1 for
decayFactor 1/2. -/
theorem C9_decay_composition_witness :
    (fun y : ℝ => y * decayRetention (1/2) (1 / ((2:ℕ) : ℝ)))^[2] 1
      = 1 * decayRetention (1/2) 1 :=
  C9_decay_composition (1/2) 1 2 (by norm_num) (by norm_num) (by norm_num)
    (by norm_num) 1

/-- main of trailMap.frag (deposit pass) as a function of gl_PointCoord:
map [0,1]^2 to [-1,1]^2, take the squared distance d from the sprite center,
discard when d > 1.0 (a discarded fragment contributes nothing under the
additive blending the pass is rendered with, modelled as 0), otherwise output
(1.0 - d) * uDepositAmount. -/
noncomputable def splatIntensity (amt : ℝ) (pc : ℝ × ℝ) : ℝ :=
  let uvm : ℝ × ℝ := (pc.1 * 2 - 1, pc.2 * 2 - 1)
  let d := uvm.1 * uvm.1 + uvm.2 * uvm.2
  if 1 < d then 0 else (1 - d) * amt

/-- One trail-deposit pass: every agent's point sprite is rasterized through
its own screen-to-point-coordinate map g and its fragments are summed onto
the existing trail by additive blending (index.ts lines 385-390 render the
point scene with THREE.AdditiveBlending onto the copied trail). -/
noncomputable def depositPass (amt : ℝ) (pcs : List ((ℝ × ℝ) → ℝ × ℝ))
    (T : TrailField) : TrailField :=
  fun p => T p + (pcs.map fun g => splatIntensity amt (g p)).sum

/-- One per-frame trail cycle, as sequenced by trailMapStep in index.ts:
additive deposit onto the previous trail, then the blur + decay pass.  A step
is a pair of the agents' rasterization maps and the frame's delta-time. -/
noncomputable def trailCycle (amt : ℝ) (res : ℝ × ℝ) (d w : ℝ)
    (step : List ((ℝ × ℝ) → ℝ × ℝ) × ℝ) (T : TrailField) : TrailField :=
  fun uv => blurFragMain (depositPass amt step.1 T) res d step.2 w uv

/-- A run of per-frame deposit/diffuse-decay cycles from an initial field. -/
noncomputable def runCycles (amt : ℝ) (res : ℝ × ℝ) (d w : ℝ)
    (steps : List (List ((ℝ × ℝ) → ℝ × ℝ) × ℝ)) (T0 : TrailField) :
    TrailField :=
  steps.foldl (fun T st => trailCycle amt res d w st T) T0

/-- A deposit fragment never outputs a negative intensity when the deposit
amount is nonnegative. -/
theorem splatIntensity_nonneg (amt : ℝ) (pc : ℝ × ℝ) (hamt : 0 ≤ amt) :
    0 ≤ splatIntensity amt pc := by
  unfold splatIntensity
  dsimp only
  split_ifs with h
  · exact le_refl 0
  · exact mul_nonneg (by linarith [not_lt.mp h]) hamt

/-- The deposit pass preserves pointwise non-negativity of the trail. -/
theorem depositPass_nonneg (amt : ℝ) (pcs : List ((ℝ × ℝ) → ℝ × ℝ))
    (T : TrailField) (hamt : 0 ≤ amt) (hT : ∀ p, 0 ≤ T p) :
    ∀ p, 0 ≤ depositPass amt pcs T p := by
  intro p
  unfold depositPass
  refine add_nonneg (hT p) (List.sum_nonneg ?_)
  intro x hx
  obtain ⟨g, _, rfl⟩ := List.mem_map.mp hx
  exact splatIntensity_nonneg amt (g p) hamt

/-- The blur + decay pass preserves pointwise non-negativity for every
diffuse weight and delta-time, given a nonnegative decay factor. -/
theorem blurFragMain_nonneg (T : TrailField) (res : ℝ × ℝ) (d dt w : ℝ)
    (uv : ℝ × ℝ) (hd : 0 ≤ d) (hT : ∀ p, 0 ≤ T p) :
    0 ≤ blurFragMain T res d dt w uv := by
  unfold blurFragMain
  have hsum : 0 ≤ boxSum9 T res uv := by
    unfold boxSum9
    repeat' refine add_nonneg ?_ ?_
    all_goals exact hT _
  have hw0 : 0 ≤ clamp01 (w * dt) := le_min (le_max_right _ _) one_pos.le
  have hw1 : clamp01 (w * dt) ≤ 1 := min_le_right _ _
  have hblur : 0 ≤ boxSum9 T res uv / 9 := div_nonneg hsum (by norm_num)
  refine mul_nonneg (add_nonneg (mul_nonneg (hT uv) (by linarith))
    (mul_nonneg hblur hw0)) ?_
  exact Real.rpow_nonneg hd dt

/-- C8: with a nonnegative deposit amount and decay factor, every run of
per-frame deposit / diffuse-decay cycles started from the all-zero trail
field yields only nonnegative texel values (and, by the same preservation
lemmas, so does any run from any nonnegative field). -/
theorem C8_trail_nonneg (amt : ℝ) (res : ℝ × ℝ) (d w : ℝ)
    (steps : List (List ((ℝ × ℝ) → ℝ × ℝ) × ℝ))
    (hamt : 0 ≤ amt) (hd : 0 ≤ d) :
    ∀ uv, 0 ≤ runCycles amt res d w steps (fun _ => 0) uv := by
  suffices h : ∀ (steps : List (List ((ℝ × ℝ) → ℝ × ℝ) × ℝ)) (T : TrailField),
      (∀ p, 0 ≤ T p) → ∀ uv, 0 ≤ runCycles amt res d w steps T uv by
    exact h steps (fun _ => 0) (fun _ => le_refl 0)
  intro steps
  induction steps with
  | nil => intro T hT uv; exact hT uv
  | cons st rest ih =>
      intro T hT uv
      refine ih (trailCycle amt res d w st T) ?_ uv
      intro p
      exact blurFragMain_nonneg _ res d st.2 w p hd
        (depositPass_nonneg amt st.1 T hamt hT)

/-- C8 witness: a single cycle with one agent splat from the zero field is
nonnegative at the origin. -/
theorem C8_trail_nonneg_witness :
    0 ≤ runCycles 1 (2, 2) (1/2) 1 [([fun p => p], 1)] (fun _ => 0) (0, 0) :=
  C8_trail_nonneg 1 (2, 2) (1/2) 1 [([fun p => p], 1)]
    (by norm_num) (by norm_num) (0, 0)

/-- Abstract semantics of the GPU passes the Physarum orchestration issues:
the agent-update render (agents, trail, uTime, uDeltaTime), the additive
deposit render, the blur + decay render, and the content a cleared target
holds.  The orchestration theorems hold for every pass semantics; concrete
instantiations (e.g. with the agent kernel above) realize counterexamples. -/
structure RenderPasses (ATex TTex : Type) where
  agentStep : ATex → TTex → ℚ → ℚ → ATex
  deposit : ATex → TTex → TTex
  blurStep : TTex → ℚ → TTex
  zeroT : TTex

/-- The mutable state of the Physarum class touched by the per-frame loop,
reset and resize: contents of the two agent and two trail render targets,
their allocated dimensions, the display and blur resolution uniforms, the
delta-time tracker lastTime, and the uTime / uDeltaTime values the agent
simulation material retains between renders. -/
structure PhysState (ATex TTex : Type) where
  agentA : ATex
  agentB : ATex
  trailA : TTex
  trailB : TTex
  agentDimsA : ℕ × ℕ
  agentDimsB : ℕ × ℕ
  trailDimsA : ℕ × ℕ
  trailDimsB : ℕ × ℕ
  uResolution : ℕ × ℕ
  blurResolution : ℕ × ℕ
  lastTime : ℚ
  boundTime : ℚ
  boundDt : ℚ

/-- agentSimulationStep, index.ts lines 361-377: bind uAgentState to agent
target A and uTrailMap to trail target A, set uTime and uDeltaTime, render
the kernel into agent target B, then swap the two agent render targets (the
destructuring assignment swaps the target objects, dimensions included). -/
def agentSimulationStep {ATex TTex : Type} (P : RenderPasses ATex TTex)
    (s : PhysState ATex TTex) (time dt : ℚ) : PhysState ATex TTex :=
  { s with
    agentA := P.agentStep s.agentA s.trailA time dt
    agentB := s.agentA
    agentDimsA := s.agentDimsB
    agentDimsB := s.agentDimsA
    boundTime := time
    boundDt := dt }

/-- trailMapStep, index.ts lines 379-407: copy trail target A into trail
target B, render the deposit scene additively onto B reading agent target A,
then render blur + decay from B into A.  The two trail targets are never
swapped. -/
def trailMapStep {ATex TTex : Type} (P : RenderPasses ATex TTex)
    (s : PhysState ATex TTex) (dt : ℚ) : PhysState ATex TTex :=
  let deposited := P.deposit s.agentA s.trailA
  { s with trailB := deposited, trailA := P.blurStep deposited dt }

/-- The delta-time rule of update, index.ts line 411: the fixed nominal
0.016 when lastTime holds the sentinel 0, else the gap since the previous
step. -/
def nextDt {ATex TTex : Type} (s : PhysState ATex TTex) (time : ℚ) : ℚ :=
  if s.lastTime = 0 then 16/1000 else time - s.lastTime

/-- update, index.ts lines 409-422: compute delta-time, record lastTime, run
the agent simulation step then the trail map step.  The display material
afterwards reads agent target A and trail target A. -/
def update {ATex TTex : Type} (P : RenderPasses ATex TTex)
    (s : PhysState ATex TTex) (time : ℚ) : PhysState ATex TTex :=
  trailMapStep P
    (agentSimulationStep P { s with lastTime := time } time (nextDt s time))
    (nextDt s time)

/-- resetSimulation, index.ts lines 428-453: re-render the agent simulation
material — whose uAgentState now holds the freshly sampled data texture but
which still runs the sense-rotate-move kernel with the retained
uTime / uDeltaTime values and the still-bound (not yet cleared) trail A
texture — into agent target A; then clear both trail targets; then reset
lastTime to 0. -/
def resetSimulation {ATex TTex : Type} (P : RenderPasses ATex TTex)
    (s : PhysState ATex TTex) (fresh : ATex) : PhysState ATex TTex :=
  { s with
    agentA := P.agentStep fresh s.trailA s.boundTime s.boundDt
    trailA := P.zeroT
    trailB := P.zeroT
    lastTime := 0 }

/-- resize, index.ts lines 459-482: read the canvas dimensions, update the
display resolution uniform and the blur material's resolution uniform, and
rebuild the display plane geometry.  No render target is reallocated or
otherwise touched. -/
def resize {ATex TTex : Type} (s : PhysState ATex TTex) (w h : ℕ) :
    PhysState ATex TTex :=
  { s with uResolution := (w, h), blurResolution := (w, h) }

/-- A concrete state over trivial texture contents, with trail targets
allocated at 800x600 and agent targets at 500x500. -/
def s6 : PhysState Unit Unit :=
  { agentA := (), agentB := (), trailA := (), trailB := ()
    agentDimsA := (500, 500), agentDimsB := (500, 500)
    trailDimsA := (800, 600), trailDimsB := (800, 600)
    uResolution := (800, 600), blurResolution := (800, 600)
    lastTime := 0, boundTime := 0, boundDt := 16/1000 }

/-- C6 counterexample.  Calling resize with new dimensions 1024x768 on a
state whose trail targets were allocated at 800x600 leaves both trail
buffers at 800x600: the method only updates resolution uniforms and display
geometry, it reallocates nothing. -/
theorem C6_resize_counterexample :
    (resize s6 1024 768).trailDimsA = (800, 600) ∧
    (resize s6 1024 768).trailDimsB = (800, 600) ∧
    ((800, 600) : ℕ × ℕ) ≠ (1024, 768) := by
  exact ⟨rfl, rfl, by decide⟩

/-- C6 amended: resize(fieldWidth, fieldHeight) updates the display and blur
resolution uniforms to the new dimensions and nothing else: both trail
buffers (contents and dimensions) and both agent buffers (contents and
dimensions, driven only by agent count) are left unchanged by the call. -/
theorem C6_resize_effect {ATex TTex : Type} (s : PhysState ATex TTex)
    (w h : ℕ) :
    (resize s w h).trailDimsA = s.trailDimsA ∧
    (resize s w h).trailDimsB = s.trailDimsB ∧
    (resize s w h).trailA = s.trailA ∧
    (resize s w h).trailB = s.trailB ∧
    (resize s w h).agentDimsA = s.agentDimsA ∧
    (resize s w h).agentDimsB = s.agentDimsB ∧
    (resize s w h).agentA = s.agentA ∧
    (resize s w h).agentB = s.agentB ∧
    (resize s w h).uResolution = (w, h) ∧
    (resize s w h).blurResolution = (w, h) :=
  ⟨rfl, rfl, rfl, rfl, rfl, rfl, rfl, rfl, rfl, rfl⟩

/-- Pass semantics instantiating the agent-update render with the actual
sense-rotate-move kernel (trig oracle tgNegX, sensorAngle 0,
sensorDistance 0, rotationAngle 1, stepSize 1/10, uTime from the render
call), and the trail passes with identities — the reset counterexample only
inspects the agent buffer.  With sensorDistance 0 all three sensors sample
the agent's own wrapped position, so every reading is equal and the kernel
keeps the heading. -/
def passKernel : RenderPasses (V2 → Vec4) (V2 → ℚ) where
  agentStep := fun A T time _ => fun uv =>
    agentMain tgNegX ⟨0, 0, 1, 1/10, time⟩ T uv (A uv)
  deposit := fun _ T => T
  blurStep := fun T _ => T
  zeroT := fun _ => 0

/-- A concrete running state over the kernel texture types: zero trail
contents, some stale agent contents, mid-run lastTime 5 and retained
material uniforms uTime 3, uDeltaTime 16/1000. -/
def s7 : PhysState (V2 → Vec4) (V2 → ℚ) :=
  { agentA := fun _ => ⟨0, 0, 0, 1⟩, agentB := fun _ => ⟨0, 0, 0, 1⟩
    trailA := fun _ => 0, trailB := fun _ => 0
    agentDimsA := (500, 500), agentDimsB := (500, 500)
    trailDimsA := (800, 600), trailDimsB := (800, 600)
    uResolution := (800, 600), blurResolution := (800, 600)
    lastTime := 5, boundTime := 3, boundDt := 16/1000 }

/-- C7 counterexample.  After reset, the agent buffer does not hold the
freshly sampled starting positions and headings: the reset re-renders the
fresh data through the sense-rotate-move kernel (reading the pre-clear
trail), so a fresh agent sampled at (1/2, 1/2) is stored one movement step
away, at (2/5, 1/2) for stepSize 1/10 and a heading read as the -x
direction. -/
theorem C7_reset_counterexample :
    (resetSimulation passKernel s7 (fun _ => ⟨1/2, 1/2, 0, 1⟩)).agentA (0, 0)
        = ⟨2/5, 1/2, 0, 1⟩ ∧
      (⟨2/5, 1/2, 0, 1⟩ : Vec4) ≠ ⟨1/2, 1/2, 0, 1⟩ := by
  constructor
  · show agentMain tgNegX ⟨0, 0, 1, 1/10, 3⟩ s7.trailA (0, 0) ⟨1/2, 1/2, 0, 1⟩
        = ⟨2/5, 1/2, 0, 1⟩
    norm_num [agentMain, agentNewAngle, senseLFR, decideAngle, explorationRand,
      random, rotate, fract2, Int.fract, PI, tgNegX, s7]
  · intro h
    exact absurd (congrArg Vec4.x h) (by norm_num)

/-- C7 amended: resetSimulation clears both trail buffers to zero, resets
lastTime so that the next update uses the fixed nominal delta-time 0.016,
and repopulates the agent buffer by rendering the agent-update kernel once
over the freshly sampled starting positions and headings (reading the
not-yet-cleared trail and the retained uTime / uDeltaTime), rather than
storing the raw samples themselves. -/
theorem C7_reset_effect {ATex TTex : Type} (P : RenderPasses ATex TTex)
    (s : PhysState ATex TTex) (fresh : ATex) (t : ℚ) :
    (resetSimulation P s fresh).trailA = P.zeroT ∧
    (resetSimulation P s fresh).trailB = P.zeroT ∧
    (resetSimulation P s fresh).lastTime = 0 ∧
    nextDt (resetSimulation P s fresh) t = 16/1000 ∧
    (resetSimulation P s fresh).agentA
      = P.agentStep fresh s.trailA s.boundTime s.boundDt := by
  refine ⟨rfl, rfl, rfl, ?_, rfl⟩
  unfold nextDt resetSimulation
  rw [if_pos rfl]

/-- Built from the spec's trail scheme (section 2): deposit the agents onto
a copy of the prior front trail, diffuse-decay that copy, and after the swap
that copy is the new front trail. -/
def specTrailStep {ATex TTex : Type} (P : RenderPasses ATex TTex)
    (front : TTex) (agents : ATex) (dt : ℚ) : TTex :=
  P.blurStep (P.deposit agents front) dt

/-- The two trail render targets. -/
inductive TrailTgt where
  | A : TrailTgt
  | B : TrailTgt
deriving DecidableEq

/-- For each of the three renders issued by trailMapStep, the trail textures
it samples and the trail target it writes: the copy pass reads A and writes
B; the deposit pass samples only the agent texture and writes B (additive
blending reads the destination through the blend hardware, not through a
sampler); the blur pass reads B and writes A. -/
def trailStepRenderTable : List (List TrailTgt × TrailTgt) :=
  [([TrailTgt.A], TrailTgt.B), ([], TrailTgt.B), ([TrailTgt.B], TrailTgt.A)]

/-- C10: the copy-A-to-B / deposit-onto-B / blur-B-into-A choreography (with
no pointer swap of the trail targets) is observationally equivalent to the
specified deposit-onto-copy, diffuse-decay, swap scheme — after every update
the fixed target A holds exactly the trail the spec scheme's new front would
hold, and it is what the display pass and the next agent-update step read;
moreover no render of the trail step samples the trail texture it is writing
to. -/
theorem C10_double_buffer_refinement :
    (∀ (ATex TTex : Type) (P : RenderPasses ATex TTex)
        (s : PhysState ATex TTex) (t : ℚ),
      (update P s t).trailA
          = specTrailStep P s.trailA ((update P s t).agentA) (nextDt s t) ∧
      (update P s t).agentA
          = P.agentStep s.agentA s.trailA t (nextDt s t)) ∧
    (trailStepRenderTable.all fun pr => !(pr.1.contains pr.2)) = true :=
  ⟨fun _ _ _ _ _ => ⟨rfl, rfl⟩, rfl⟩

end Physarum


